import Mathlib

/-!
Shallow embedding of `src/basic/verbs.c` (systemd's verb dispatcher):
`running_in_chroot_or_offline` and `dispatch_verb`, together with an
instrumented variant `dispatch_outcome` that records which table entry's
handler is invoked (and with which arguments) and the diagnostic log
events emitted along the way.
-/

namespace Verbs

/-- The errno value `EINVAL` (invalid argument) on Linux; the C code
returns `-EINVAL` on lookup and argument-count failures. -/
def EINVAL : Int := 22

/-- Diagnostic log events emitted by `running_in_chroot_or_offline` and
`dispatch_verb`.  Each constructor corresponds to one `log_*` call site in
the C source; `r` carries the errno argument of `log_debug_errno`. -/
inductive LogEvent where
  | debug_parsing_offline (r : Int)
  | debug_running_in_chroot (r : Int)
  | error_unknown_operation (name : String)
  | error_requires_operation
  | error_too_few
  | error_too_many
  | info_ignoring_request (name : Option String)
deriving DecidableEq, Repr

/-- Results of the external collaborators consumed by `verbs.c`, as an
environment record.  `getenv_bool_offline` is the value returned by
`getenv_bool("SYSTEMD_OFFLINE")` (negative: absent or unparsable, `0`:
falsy, positive: truthy); `running_in_chroot` is the value returned by the
`running_in_chroot()` probe (negative: error, `0`: no, positive: yes);
`must_be_root` is the value returned by `must_be_root()` (negative: error,
otherwise success). -/
structure Env where
  getenv_bool_offline : Int
  running_in_chroot : Int
  must_be_root : Int
deriving DecidableEq, Repr

/-- Embedding of `running_in_chroot_or_offline` from `verbs.c`, returning
the boolean result together with the debug log events it emits.  The C
code: on `getenv_bool("SYSTEMD_OFFLINE") < 0` it logs at debug level and
falls through; on `0` it returns `false`; otherwise `true`.  The
fall-through consults `running_in_chroot()`: a negative (error) result is
logged at debug level and falls through to `return false`; a positive
result returns `true`; zero falls through to `return false`. -/
def running_in_chroot_or_offline (e : Env) : Bool × List LogEvent :=
  let r := e.getenv_bool_offline
  if r < 0 then
    let logs := [LogEvent.debug_parsing_offline r]
    let r2 := e.running_in_chroot
    if r2 < 0 then (false, logs ++ [LogEvent.debug_running_in_chroot r2])
    else if r2 > 0 then (true, logs)
    else (false, logs)
  else if r = 0 then (false, [])
  else (true, [])

/-- Modelled from the spec: the flag bits `VERB_DEFAULT`,
`VERB_ONLINE_ONLY` and `VERB_MUST_BE_ROOT` of the `Verb` descriptor
(declared in `verbs.h`, which is not part of the sources), as three
independent policy bits. -/
structure VerbFlags where
  verb_default : Bool
  online_only : Bool
  must_be_root : Bool
deriving DecidableEq, Repr

/-- Modelled from the spec: the `Verb` descriptor of `verbs.h` (not part
of the sources): a name, inclusive `min_args`/`max_args` bounds where the
sentinel `VERB_ANY` (here `none`) disables a bound, flag bits, and the
handler `dispatch(argc, argv, userdata)`.  `U` is the type of the opaque
`userdata` pointer. -/
structure Verb (U : Type) where
  verb : String
  min_args : Option Nat
  max_args : Option Nat
  flags : VerbFlags
  dispatch : Nat → List String → U → Int

/-- The per-entry match test of the lookup loop in `dispatch_verb`: with a
name, exact string equality against the entry's name (`streq`); without a
name, the entry's `VERB_DEFAULT` flag. -/
def verb_found {U : Type} (name : Option String) (v : Verb U) : Bool :=
  match name with
  | some n => n == v.verb
  | none => v.flags.verb_default

/-- The lookup loop of `dispatch_verb`: scan the table in order starting
at index `k`, returning the index and entry of the first match; reaching
the end of the list models reaching the terminator entry (the entry whose
`dispatch` member is null). -/
def find_verb_from {U : Type} (name : Option String) (k : Nat) :
    List (Verb U) → Option (Nat × Verb U)
  | [] => none
  | v :: rest =>
      if verb_found name v then some (k, v) else find_verb_from name (k + 1) rest

/-- The read `name = argv[optind]` in `dispatch_verb`: `argv` is the
NULL-terminated argument vector of length `argc`, so the read at index
`argc` yields the terminator (`none`, "no verb given"). -/
def verb_name (argv : List String) (optind : Nat) : Option String :=
  argv[optind]?

/-- The minimum-bound test of `dispatch_verb`:
`verb->min_args != VERB_ANY && (unsigned) left < verb->min_args`. -/
def minFails (mi : Option Nat) (left : Nat) : Bool :=
  match mi with
  | none => false
  | some m => decide (left < m)

/-- The maximum-bound test of `dispatch_verb`:
`verb->max_args != VERB_ANY && (unsigned) left > verb->max_args`. -/
def maxFails (ma : Option Nat) (left : Nat) : Bool :=
  match ma with
  | none => false
  | some m => decide (left > m)

/-- The effective argument count that the bound checks and the handler
see: `left = argc - optind`, overridden to `1` on the no-name path
(`if (!name) left = 1;` in `verbs.c`). -/
def effective_left (argc : Nat) (argv : List String) (optind : Nat) : Nat :=
  if (verb_name argv optind).isNone then 1 else argc - optind

/-- The observable outcome of one `dispatch_verb` call: which handler is
invoked with which arguments, or which gate stopped dispatch. -/
inductive Outcome where
  | invoked (idx : Nat) (argc : Nat) (argv : List String)
  | chroot_skip
  | unknown_verb (name : String)
  | missing_verb
  | too_few
  | too_many
  | perm_error (r : Int)
deriving DecidableEq, Repr

/-- The code of `dispatch_verb` after the lookup loop has found the entry
`verb` at index `i` (the part after `assert(verb)` in `verbs.c`),
instrumented: records which handler is invoked with which arguments, and
the log events emitted.  The `gate` pair reflects that
`running_in_chroot_or_offline()` is only called (and hence only logs)
when the entry carries `VERB_ONLINE_ONLY`, because `&&` short-circuits. -/
def matched_outcome {U : Type} (argc : Nat) (argv : List String) (optind : Nat)
    (e : Env) (i : Nat) (verb : Verb U) : Outcome × List LogEvent :=
  let name := verb_name argv optind
  let left := effective_left argc argv optind
  if minFails verb.min_args left then (.too_few, [.error_too_few])
  else if maxFails verb.max_args left then (.too_many, [.error_too_many])
  else
    let gate : Bool × List LogEvent :=
      if verb.flags.online_only then running_in_chroot_or_offline e
      else (false, [])
    if gate.1 then (.chroot_skip, gate.2 ++ [.info_ignoring_request name])
    else if verb.flags.must_be_root && decide (e.must_be_root < 0) then
      (.perm_error e.must_be_root, gate.2)
    else match name with
      | some _ => (.invoked i left (argv.drop optind), gate.2)
      | none => (.invoked i 1 [verb.verb], gate.2)

/-- Instrumented embedding of `dispatch_verb` from `verbs.c`: follows the
same control flow as `dispatch_verb` below but records, instead of the
returned `int`, which entry's handler is invoked (by table index) with
which argument count and argument slice, and the log events emitted. -/
def dispatch_outcome {U : Type} (argc : Nat) (argv : List String) (optind : Nat)
    (verbs : List (Verb U)) (e : Env) : Outcome × List LogEvent :=
  let name := verb_name argv optind
  match find_verb_from name 0 verbs with
  | none =>
      match name with
      | some n => (.unknown_verb n, [.error_unknown_operation n])
      | none => (.missing_verb, [.error_requires_operation])
  | some (i, verb) => matched_outcome argc argv optind e i verb

/-- The code of `dispatch_verb` after the lookup loop has found `verb`,
returning the `int` the C function returns. -/
def matched_ret {U : Type} (argc : Nat) (argv : List String) (optind : Nat)
    (e : Env) (verb : Verb U) (userdata : U) : Int :=
  let name := verb_name argv optind
  let left := effective_left argc argv optind
  if minFails verb.min_args left then -EINVAL
  else if maxFails verb.max_args left then -EINVAL
  else if verb.flags.online_only && (running_in_chroot_or_offline e).1 then 0
  else if verb.flags.must_be_root && decide (e.must_be_root < 0) then e.must_be_root
  else match name with
    | some _ => verb.dispatch left (argv.drop optind) userdata
    | none => verb.dispatch 1 [verb.verb] userdata

/-- Direct embedding of `dispatch_verb` from `verbs.c`, returning the
`int` the C function returns: `-EINVAL` on lookup and argument-count
failures, `0` (without calling the handler) on the online-only/chroot
skip, the error of `must_be_root()` on privilege failure, and otherwise
the handler's own return value.  On the default-verb path the handler is
called with `(1, fake)` where `fake` holds only the entry's own name. -/
def dispatch_verb {U : Type} (argc : Nat) (argv : List String) (optind : Nat)
    (verbs : List (Verb U)) (e : Env) (userdata : U) : Int :=
  let name := verb_name argv optind
  match find_verb_from name 0 verbs with
  | none => -EINVAL
  | some (_, verb) => matched_ret argc argv optind e verb userdata

/-! Characterization of the lookup loop. -/

/-- The lookup loop returns the first matching entry: if `l[i]? = some v`
matches and every earlier entry does not, the scan started at base index
`k` returns `(k + i, v)`. -/
theorem find_verb_from_of_first {U : Type} (name : Option String) :
    ∀ (l : List (Verb U)) (i k : Nat) (v : Verb U),
      l[i]? = some v → verb_found name v = true →
      (∀ j w, j < i → l[j]? = some w → verb_found name w = false) →
      find_verb_from name k l = some (k + i, v) := by
  intro l
  induction l with
  | nil => intro i k v hget _ _; simp at hget
  | cons a rest ih =>
      intro i k v hget hfound hfirst
      cases i with
      | zero =>
          simp only [List.getElem?_cons_zero, Option.some.injEq] at hget
          subst hget
          simp [find_verb_from, hfound]
      | succ i' =>
          have ha : verb_found name a = false :=
            hfirst 0 a (Nat.succ_pos i') (by simp)
          simp only [List.getElem?_cons_succ] at hget
          simp only [find_verb_from, ha, Bool.false_eq_true, if_false]
          have hfirst' : ∀ j w, j < i' → rest[j]? = some w →
              verb_found name w = false := by
            intro j w hj hw
            exact hfirst (j + 1) w (Nat.succ_lt_succ hj) (by simpa using hw)
          have harith : k + (i' + 1) = (k + 1) + i' := by omega
          rw [harith]
          exact ih i' (k + 1) v hget hfound hfirst'

/-- If no entry of the table matches, the lookup loop reaches the
terminator and returns `none`. -/
theorem find_verb_from_eq_none {U : Type} (name : Option String) :
    ∀ (l : List (Verb U)) (k : Nat),
      (∀ v ∈ l, verb_found name v = false) →
      find_verb_from name k l = none := by
  intro l
  induction l with
  | nil => intro k _; rfl
  | cons a rest ih =>
      intro k h
      have ha : verb_found name a = false := h a (List.mem_cons_self a rest)
      simp only [find_verb_from, ha, Bool.false_eq_true, if_false]
      exact ih (k + 1) fun v hv => h v (List.mem_cons_of_mem a hv)

/-- The index returned by the lookup loop addresses the returned entry:
if the scan started at base `k` returns `(i, v)` then `k ≤ i` and the
entry at offset `i - k` of the scanned list is `v`. -/
theorem find_verb_from_getElem {U : Type} (name : Option String) :
    ∀ (l : List (Verb U)) (k i : Nat) (v : Verb U),
      find_verb_from name k l = some (i, v) → k ≤ i ∧ l[i - k]? = some v := by
  intro l
  induction l with
  | nil => intro k i v h; simp [find_verb_from] at h
  | cons a rest ih =>
      intro k i v h
      by_cases ha : verb_found name a = true
      · simp only [find_verb_from, ha, if_true, Option.some.injEq, Prod.mk.injEq] at h
        obtain ⟨rfl, rfl⟩ := h
        simp
      · simp only [find_verb_from, ha, if_false] at h
        obtain ⟨hk, hget⟩ := ih (k + 1) i v h
        refine ⟨by omega, ?_⟩
        have hik : i - k = (i - (k + 1)) + 1 := by omega
        rw [hik, List.getElem?_cons_succ]
        exact hget

/-- Specialization of `find_verb_from_getElem` to the scan the dispatcher
performs (base index `0`). -/
theorem find_verb_getElem {U : Type} (name : Option String)
    (l : List (Verb U)) (i : Nat) (v : Verb U)
    (h : find_verb_from name 0 l = some (i, v)) : l[i]? = some v := by
  have h2 := find_verb_from_getElem name l 0 i v h
  simpa using h2.2

/-- Once the lookup loop has found `(i, v)`, `dispatch_outcome` is the
post-loop code applied to that entry. -/
theorem dispatch_outcome_eq_matched {U : Type} (argc : Nat) (argv : List String)
    (optind : Nat) (verbs : List (Verb U)) (e : Env) (i : Nat) (v : Verb U)
    (hfind : find_verb_from (verb_name argv optind) 0 verbs = some (i, v)) :
    dispatch_outcome argc argv optind verbs e = matched_outcome argc argv optind e i v := by
  simp only [dispatch_outcome, hfind]

/-- Once the lookup loop has found `(i, v)`, `dispatch_verb` is the
post-loop code applied to that entry. -/
theorem dispatch_verb_eq_matched {U : Type} (argc : Nat) (argv : List String)
    (optind : Nat) (verbs : List (Verb U)) (e : Env) (ud : U) (i : Nat) (v : Verb U)
    (hfind : find_verb_from (verb_name argv optind) 0 verbs = some (i, v)) :
    dispatch_verb argc argv optind verbs e ud = matched_ret argc argv optind e v ud := by
  simp only [dispatch_verb, hfind]

/-! Concrete fixtures used by witnesses and counterexamples. -/

/-- A handler that returns `7`. -/
def handlerSeven : Nat → List String → Unit → Int := fun _ _ _ => 7

/-- A handler that returns `8`. -/
def handlerEight : Nat → List String → Unit → Int := fun _ _ _ => 8

/-- The `status` entry of the spec's §8 scenario: bounds `1..1`, default
verb. -/
def vStatus : Verb Unit := ⟨"status", some 1, some 1, ⟨true, false, false⟩, handlerSeven⟩

/-- The `restart` entry of the spec's §8 scenario: bounds `1..2`,
online-only and root-requiring. -/
def vRestart : Verb Unit := ⟨"restart", some 1, some 2, ⟨false, true, true⟩, handlerEight⟩

/-- An entry with bounds `2..4` (spec §8's min/max example). -/
def vBounded : Verb Unit := ⟨"b", some 2, some 4, ⟨false, false, false⟩, handlerSeven⟩

/-- An entry demanding at least five arguments, maximum unbounded. -/
def vNeedsFive : Verb Unit := ⟨"a", some 5, none, ⟨false, false, false⟩, handlerSeven⟩

/-- A default-flagged entry demanding at least two arguments. -/
def vDefaultNeedsTwo : Verb Unit := ⟨"d", some 2, none, ⟨true, false, false⟩, handlerSeven⟩

/-- Environment: `SYSTEMD_OFFLINE=0`, not in chroot, privileged. -/
def envOnline : Env := ⟨0, 0, 0⟩

/-- Environment: `SYSTEMD_OFFLINE=1` (restricted forced on). -/
def envOffline : Env := ⟨1, 0, 0⟩

/-- Environment: `SYSTEMD_OFFLINE` unparsable, `running_in_chroot()`
fails with an error. -/
def envProbeError : Env := ⟨-2, -1, 0⟩

/-- Environment: not restricted, `must_be_root()` fails with `-EPERM`. -/
def envNoRoot : Env := ⟨0, 0, -1⟩

/-! Claim C1. -/

/-- C1 counterexample: the claim as stated asserts that any invocation
whose verb name is present in the table reaches that entry's handler; but
with the table `[vNeedsFive]` and invocation `a` (name present, first
entry) the minimum-arguments gate fires, the outcome is `too_few`, and
dispatch returns `-EINVAL` rather than the handler's result `7`. -/
theorem dispatch_named_match_not_always_invoked :
    (dispatch_outcome 1 ["a"] 0 [vNeedsFive] envOnline).1 = Outcome.too_few ∧
    dispatch_verb 1 ["a"] 0 [vNeedsFive] envOnline () = -EINVAL ∧
    vNeedsFive.dispatch (1 - 0) (List.drop 0 ["a"]) () = 7 := by
  exact ⟨rfl, rfl, rfl⟩

/-- C1 (amended): for every table and invocation whose verb name at
position `optind` equals the name of some entry — provided additionally
that the effective count `argc - optind` passes the first matching
entry's min/max bounds, that the entry is not online-only-gated in a
restricted environment, and that its privilege check (if required)
succeeds — dispatch invokes exactly that entry's handler (the first
matching entry in table order) with argument count `argc - optind` and
the argument slice starting at the verb token, and returns that handler's
result. -/
theorem dispatch_named_invokes_first_match {U : Type}
    (argc optind : Nat) (argv : List String) (verbs : List (Verb U))
    (e : Env) (ud : U) (n : String) (i : Nat) (v : Verb U)
    (hname : verb_name argv optind = some n)
    (hget : verbs[i]? = some v)
    (hmatch : v.verb = n)
    (hfirst : ∀ j w, j < i → verbs[j]? = some w → w.verb ≠ n)
    (hmin : minFails v.min_args (argc - optind) = false)
    (hmax : maxFails v.max_args (argc - optind) = false)
    (honline : v.flags.online_only = false ∨ (running_in_chroot_or_offline e).1 = false)
    (hroot : v.flags.must_be_root = false ∨ 0 ≤ e.must_be_root) :
    (dispatch_outcome argc argv optind verbs e).1
        = Outcome.invoked i (argc - optind) (argv.drop optind) ∧
    dispatch_verb argc argv optind verbs e ud
        = v.dispatch (argc - optind) (argv.drop optind) ud := by
  have hfound : verb_found (verb_name argv optind) v = true := by
    simp [verb_found, hname, hmatch]
  have hfirst' : ∀ j w, j < i → verbs[j]? = some w →
      verb_found (verb_name argv optind) w = false := by
    intro j w hj hw
    simp only [verb_found, hname, beq_eq_false_iff_ne, ne_eq]
    exact fun hc => hfirst j w hj hw hc.symm
  have hfind : find_verb_from (verb_name argv optind) 0 verbs = some (i, v) := by
    have h := find_verb_from_of_first (verb_name argv optind) verbs i 0 v hget hfound hfirst'
    simpa using h
  have hgate : (if v.flags.online_only then running_in_chroot_or_offline e
      else ((false : Bool), ([] : List LogEvent))).1 = false := by
    rcases honline with h | h
    · simp [h]
    · cases hc : v.flags.online_only <;> simp [h]
  have hgateb : (v.flags.online_only && (running_in_chroot_or_offline e).1) = false := by
    rcases honline with h | h <;> simp [h]
  have hrootb : (v.flags.must_be_root && decide (e.must_be_root < 0)) = false := by
    rcases hroot with h | h
    · simp [h]
    · simp [decide_eq_false (by omega : ¬ e.must_be_root < 0)]
  constructor
  · rw [dispatch_outcome_eq_matched argc argv optind verbs e i v hfind]
    simp only [matched_outcome, effective_left, hname, Option.isNone_some, if_false, hmin, hmax,
      Bool.false_eq_true, hgate]
    simp [hrootb]
  · rw [dispatch_verb_eq_matched argc argv optind verbs e ud i v hfind]
    simp only [matched_ret, effective_left, hname, Option.isNone_some, if_false, hmin, hmax,
      Bool.false_eq_true, hgateb]
    simp [hrootb]

/-- C1 witness: the spec §8 scenario `restart now` against
`[vStatus, vRestart]` in a non-restricted, privileged environment: the
second entry (first match for `restart`) is invoked with `(2, ["restart",
"now"])` and its result `8` is returned. -/
theorem dispatch_named_invokes_first_match_witness :
    (dispatch_outcome 2 ["restart", "now"] 0 [vStatus, vRestart] envOnline).1
        = Outcome.invoked 1 (2 - 0) (List.drop 0 ["restart", "now"]) ∧
    dispatch_verb 2 ["restart", "now"] 0 [vStatus, vRestart] envOnline ()
        = vRestart.dispatch (2 - 0) (List.drop 0 ["restart", "now"]) () := by
  refine dispatch_named_invokes_first_match 2 0 ["restart", "now"] [vStatus, vRestart]
      envOnline () "restart" 1 vRestart rfl rfl rfl ?_ rfl rfl (Or.inr rfl) (Or.inr (by decide))
  intro j w hj hw
  have hj0 : j = 0 := by omega
  subst hj0
  have hw' : w = vStatus := by
    simpa using hw.symm
  subst hw'
  decide

/-! Claim C2. -/

/-- C2 counterexample: the claim as stated asserts that with a
default-flagged entry present and no verb name supplied, dispatch invokes
that entry's handler; but with the table `[vDefaultNeedsTwo]` (default
entry with `min_args = 2`) and an empty invocation the minimum-arguments
gate fires on the effective count `1`, the outcome is `too_few`, and
dispatch returns `-EINVAL` rather than the handler's result `7`. -/
theorem dispatch_default_not_always_invoked :
    (dispatch_outcome 0 [] 0 [vDefaultNeedsTwo] envOnline).1 = Outcome.too_few ∧
    dispatch_verb 0 [] 0 [vDefaultNeedsTwo] envOnline () = -EINVAL ∧
    vDefaultNeedsTwo.dispatch 1 [vDefaultNeedsTwo.verb] () = 7 := by
  exact ⟨rfl, rfl, rfl⟩

/-- C2 (amended): for every table whose first default-flagged entry is at
index `i`, when no verb name is supplied (the read at `optind` yields the
terminator) — provided additionally that effective count `1` passes that
entry's min/max bounds and its policy gates pass — dispatch invokes that
entry's handler with effective argument count `1` and a synthesized
argument list whose single element is the entry's own verb name, not the
original argv slice, and returns the handler's result. -/
theorem dispatch_default_invokes_synthesized {U : Type}
    (argc optind : Nat) (argv : List String) (verbs : List (Verb U))
    (e : Env) (ud : U) (i : Nat) (v : Verb U)
    (hname : verb_name argv optind = none)
    (hget : verbs[i]? = some v)
    (hdef : v.flags.verb_default = true)
    (hfirst : ∀ j w, j < i → verbs[j]? = some w → w.flags.verb_default = false)
    (hmin : minFails v.min_args 1 = false)
    (hmax : maxFails v.max_args 1 = false)
    (honline : v.flags.online_only = false ∨ (running_in_chroot_or_offline e).1 = false)
    (hroot : v.flags.must_be_root = false ∨ 0 ≤ e.must_be_root) :
    (dispatch_outcome argc argv optind verbs e).1 = Outcome.invoked i 1 [v.verb] ∧
    dispatch_verb argc argv optind verbs e ud = v.dispatch 1 [v.verb] ud := by
  have hfound : verb_found (verb_name argv optind) v = true := by
    simp [verb_found, hname, hdef]
  have hfirst' : ∀ j w, j < i → verbs[j]? = some w →
      verb_found (verb_name argv optind) w = false := by
    intro j w hj hw
    simp only [verb_found, hname]
    exact hfirst j w hj hw
  have hfind : find_verb_from (verb_name argv optind) 0 verbs = some (i, v) := by
    have h := find_verb_from_of_first (verb_name argv optind) verbs i 0 v hget hfound hfirst'
    simpa using h
  have hgate : (if v.flags.online_only then running_in_chroot_or_offline e
      else ((false : Bool), ([] : List LogEvent))).1 = false := by
    rcases honline with h | h
    · simp [h]
    · cases hc : v.flags.online_only <;> simp [h]
  have hgateb : (v.flags.online_only && (running_in_chroot_or_offline e).1) = false := by
    rcases honline with h | h <;> simp [h]
  have hrootb : (v.flags.must_be_root && decide (e.must_be_root < 0)) = false := by
    rcases hroot with h | h
    · simp [h]
    · simp [decide_eq_false (by omega : ¬ e.must_be_root < 0)]
  constructor
  · rw [dispatch_outcome_eq_matched argc argv optind verbs e i v hfind]
    simp only [matched_outcome, effective_left, hname, Option.isNone_none, if_true, hmin, hmax,
      Bool.false_eq_true, hgate]
    simp [hrootb]
  · rw [dispatch_verb_eq_matched argc argv optind verbs e ud i v hfind]
    simp only [matched_ret, effective_left, hname, Option.isNone_none, if_true, hmin, hmax,
      Bool.false_eq_true, hgateb]
    simp [hrootb]

/-- C2 witness: the spec §8 scenario with no verb against
`[vStatus, vRestart]`: the default entry `status` is invoked with
`(1, ["status"])` (not the empty argv slice) and its result `7` is
returned. -/
theorem dispatch_default_invokes_synthesized_witness :
    (dispatch_outcome 0 [] 0 [vStatus, vRestart] envOnline).1
        = Outcome.invoked 0 1 [vStatus.verb] ∧
    dispatch_verb 0 [] 0 [vStatus, vRestart] envOnline ()
        = vStatus.dispatch 1 [vStatus.verb] () :=
  dispatch_default_invokes_synthesized 0 0 [] [vStatus, vRestart] envOnline () 0 vStatus
    rfl rfl rfl (fun j _ hj _ => absurd hj (Nat.not_lt_zero j)) rfl rfl
    (Or.inl rfl) (Or.inl rfl)

/-! Claim C3. -/

/-- C3: for every matched entry, with `left` the effective argument count:
if the minimum is not the `VERB_ANY` sentinel and `left` is below it,
dispatch returns the too-few-arguments error (and `-EINVAL`), regardless
of the maximum — the minimum check is performed first; if the minimum
check does not fire, the maximum is not the sentinel and `left` exceeds
it, dispatch returns the too-many-arguments error (and `-EINVAL`); an
entry whose bound is the sentinel never triggers the corresponding error;
in either error case no handler is invoked (the outcome is the error, not
`invoked`). -/
theorem dispatch_arg_count_validation {U : Type}
    (argc optind : Nat) (argv : List String) (verbs : List (Verb U))
    (e : Env) (ud : U) (i : Nat) (v : Verb U)
    (hfind : find_verb_from (verb_name argv optind) 0 verbs = some (i, v)) :
    (minFails v.min_args (effective_left argc argv optind) = true →
        (dispatch_outcome argc argv optind verbs e).1 = Outcome.too_few ∧
        dispatch_verb argc argv optind verbs e ud = -EINVAL) ∧
    (minFails v.min_args (effective_left argc argv optind) = false →
        maxFails v.max_args (effective_left argc argv optind) = true →
        (dispatch_outcome argc argv optind verbs e).1 = Outcome.too_many ∧
        dispatch_verb argc argv optind verbs e ud = -EINVAL) ∧
    (v.min_args = none →
        (dispatch_outcome argc argv optind verbs e).1 ≠ Outcome.too_few) ∧
    (v.max_args = none →
        (dispatch_outcome argc argv optind verbs e).1 ≠ Outcome.too_many) := by
  rw [dispatch_outcome_eq_matched argc argv optind verbs e i v hfind,
    dispatch_verb_eq_matched argc argv optind verbs e ud i v hfind]
  refine ⟨?_, ?_, ?_, ?_⟩
  · intro hmin
    constructor
    · simp [matched_outcome, hmin]
    · simp [matched_ret, hmin]
  · intro hmin hmax
    constructor
    · simp [matched_outcome, hmin, hmax]
    · simp [matched_ret, hmin, hmax]
  · intro hnone
    have hmin : minFails v.min_args (effective_left argc argv optind) = false := by
      simp [minFails, hnone]
    simp only [matched_outcome, hmin, Bool.false_eq_true, if_false]
    repeat' split
    all_goals simp
  · intro hnone
    have hmax : maxFails v.max_args (effective_left argc argv optind) = false := by
      simp [maxFails, hnone]
    simp only [matched_outcome, hmax, Bool.false_eq_true, if_false]
    repeat' split
    all_goals simp

/-- C3 witness: with the table `[vBounded]` (bounds `2..4`) and the
invocation `b` (effective count `1`), the minimum check fires: outcome
`too_few`, return `-EINVAL`. -/
theorem dispatch_arg_count_validation_witness :
    minFails vBounded.min_args (effective_left 1 ["b"] 0) = true ∧
    (dispatch_outcome 1 ["b"] 0 [vBounded] envOnline).1 = Outcome.too_few ∧
    dispatch_verb 1 ["b"] 0 [vBounded] envOnline () = -EINVAL :=
  ⟨by decide,
    (dispatch_arg_count_validation 1 0 ["b"] [vBounded] envOnline () 0 vBounded rfl).1
      (by decide)⟩

/-! Claim C4. -/

/-- C4: for every matched entry flagged online-only, when the
restricted-environment predicate returns true: if the argument-count
validation passes, dispatch returns the ordinary success value `0`
without invoking the handler, and its own only emission (beyond the
predicate's log events) is the informational notice naming the request;
and this outcome is reached only after argument-count validation — if a
bound check fires, dispatch returns that error instead, restricted
environment or not. -/
theorem dispatch_online_only_skip {U : Type}
    (argc optind : Nat) (argv : List String) (verbs : List (Verb U))
    (e : Env) (ud : U) (i : Nat) (v : Verb U)
    (hfind : find_verb_from (verb_name argv optind) 0 verbs = some (i, v))
    (honline : v.flags.online_only = true)
    (hres : (running_in_chroot_or_offline e).1 = true) :
    (minFails v.min_args (effective_left argc argv optind) = false →
        maxFails v.max_args (effective_left argc argv optind) = false →
        dispatch_outcome argc argv optind verbs e =
          (Outcome.chroot_skip,
            (running_in_chroot_or_offline e).2
              ++ [LogEvent.info_ignoring_request (verb_name argv optind)]) ∧
        dispatch_verb argc argv optind verbs e ud = 0) ∧
    (minFails v.min_args (effective_left argc argv optind) = true →
        (dispatch_outcome argc argv optind verbs e).1 = Outcome.too_few) ∧
    (minFails v.min_args (effective_left argc argv optind) = false →
        maxFails v.max_args (effective_left argc argv optind) = true →
        (dispatch_outcome argc argv optind verbs e).1 = Outcome.too_many) := by
  rw [dispatch_outcome_eq_matched argc argv optind verbs e i v hfind,
    dispatch_verb_eq_matched argc argv optind verbs e ud i v hfind]
  refine ⟨fun hmin hmax => ⟨?_, ?_⟩, fun hmin => ?_, fun hmin hmax => ?_⟩
  · simp [matched_outcome, hmin, hmax, honline, hres]
  · simp [matched_ret, hmin, hmax, honline, hres]
  · simp [matched_outcome, hmin]
  · simp [matched_outcome, hmin, hmax]

/-- C4 witness: the spec §8 scenario `restart` in a restricted
environment (`SYSTEMD_OFFLINE=1`): argument counts are valid, the entry
is online-only, and dispatch returns `0` with only the informational
notice, without invoking the handler. -/
theorem dispatch_online_only_skip_witness :
    minFails vRestart.min_args (effective_left 1 ["restart"] 0) = false ∧
    maxFails vRestart.max_args (effective_left 1 ["restart"] 0) = false ∧
    (dispatch_outcome 1 ["restart"] 0 [vStatus, vRestart] envOffline =
        (Outcome.chroot_skip,
          (running_in_chroot_or_offline envOffline).2
            ++ [LogEvent.info_ignoring_request (verb_name ["restart"] 0)]) ∧
      dispatch_verb 1 ["restart"] 0 [vStatus, vRestart] envOffline () = 0) :=
  ⟨by decide, by decide,
    (dispatch_online_only_skip 1 0 ["restart"] [vStatus, vRestart] envOffline () 1 vRestart
        rfl rfl rfl).1 (by decide) (by decide)⟩

/-! Claim C5. -/

/-- C5: for every matched entry flagged as requiring elevated privilege,
if the privilege check returns an error (a negative value), dispatch
returns that error without invoking the handler, even though lookup,
argument-count validation and the restricted-environment gate all
passed. -/
theorem dispatch_must_be_root_error {U : Type}
    (argc optind : Nat) (argv : List String) (verbs : List (Verb U))
    (e : Env) (ud : U) (i : Nat) (v : Verb U)
    (hfind : find_verb_from (verb_name argv optind) 0 verbs = some (i, v))
    (hmin : minFails v.min_args (effective_left argc argv optind) = false)
    (hmax : maxFails v.max_args (effective_left argc argv optind) = false)
    (honline : v.flags.online_only = false ∨ (running_in_chroot_or_offline e).1 = false)
    (hroot : v.flags.must_be_root = true)
    (herr : e.must_be_root < 0) :
    (dispatch_outcome argc argv optind verbs e).1 = Outcome.perm_error e.must_be_root ∧
    dispatch_verb argc argv optind verbs e ud = e.must_be_root := by
  rw [dispatch_outcome_eq_matched argc argv optind verbs e i v hfind,
    dispatch_verb_eq_matched argc argv optind verbs e ud i v hfind]
  have hgate : (if v.flags.online_only then running_in_chroot_or_offline e
      else ((false : Bool), ([] : List LogEvent))).1 = false := by
    rcases honline with h | h
    · simp [h]
    · cases hc : v.flags.online_only <;> simp [h]
  have hgateb : (v.flags.online_only && (running_in_chroot_or_offline e).1) = false := by
    rcases honline with h | h <;> simp [h]
  constructor
  · simp [matched_outcome, hmin, hmax, hgate, hroot, herr]
  · simp [matched_ret, hmin, hmax, hgateb, hroot, herr]

/-- C5 witness: `restart` (root-requiring) in a non-restricted
environment whose privilege check fails with `-1`: dispatch returns `-1`
and the outcome is the privilege error, not an invocation. -/
theorem dispatch_must_be_root_error_witness :
    (dispatch_outcome 1 ["restart"] 0 [vStatus, vRestart] envNoRoot).1
        = Outcome.perm_error envNoRoot.must_be_root ∧
    dispatch_verb 1 ["restart"] 0 [vStatus, vRestart] envNoRoot ()
        = envNoRoot.must_be_root :=
  dispatch_must_be_root_error 1 0 ["restart"] [vStatus, vRestart] envNoRoot () 1 vRestart
    rfl rfl rfl (Or.inr rfl) rfl (by decide)

/-! Claim C6. -/

/-- C6: when the table scan reaches the terminator without a match,
dispatch returns an error (`-EINVAL`) and invokes no handler: with a
supplied verb name matching no entry, the unknown-operation error naming
the verb; with no name supplied and no default-flagged entry, the
missing-operation error. -/
theorem dispatch_no_match_errors {U : Type}
    (argc optind : Nat) (argv : List String) (verbs : List (Verb U))
    (e : Env) (ud : U) :
    (∀ n, verb_name argv optind = some n →
        (∀ v ∈ verbs, v.verb ≠ n) →
        dispatch_outcome argc argv optind verbs e
            = (Outcome.unknown_verb n, [LogEvent.error_unknown_operation n]) ∧
        dispatch_verb argc argv optind verbs e ud = -EINVAL) ∧
    (verb_name argv optind = none →
        (∀ v ∈ verbs, v.flags.verb_default = false) →
        dispatch_outcome argc argv optind verbs e
            = (Outcome.missing_verb, [LogEvent.error_requires_operation]) ∧
        dispatch_verb argc argv optind verbs e ud = -EINVAL) := by
  constructor
  · intro n hname hnone
    have hfound : ∀ v ∈ verbs, verb_found (verb_name argv optind) v = false := by
      intro v hv
      simp only [verb_found, hname, beq_eq_false_iff_ne, ne_eq]
      exact fun hc => hnone v hv hc.symm
    have hfind : find_verb_from (verb_name argv optind) 0 verbs = none :=
      find_verb_from_eq_none (verb_name argv optind) verbs 0 hfound
    rw [hname] at hfind
    constructor
    · simp only [dispatch_outcome, hname, hfind]
    · simp only [dispatch_verb, hname, hfind]
  · intro hname hnone
    have hfound : ∀ v ∈ verbs, verb_found (verb_name argv optind) v = false := by
      intro v hv
      simp only [verb_found, hname]
      exact hnone v hv
    have hfind : find_verb_from (verb_name argv optind) 0 verbs = none :=
      find_verb_from_eq_none (verb_name argv optind) verbs 0 hfound
    rw [hname] at hfind
    constructor
    · simp only [dispatch_outcome, hname, hfind]
    · simp only [dispatch_verb, hname, hfind]

/-- C6 witness: `bogus` against `[vStatus, vRestart]` yields the
unknown-operation error naming `bogus`; an empty invocation against the
default-free table `[vBounded]` yields the missing-operation error; both
return `-EINVAL`. -/
theorem dispatch_no_match_errors_witness :
    (dispatch_outcome 1 ["bogus"] 0 [vStatus, vRestart] envOnline
        = (Outcome.unknown_verb "bogus", [LogEvent.error_unknown_operation "bogus"]) ∧
      dispatch_verb 1 ["bogus"] 0 [vStatus, vRestart] envOnline () = -EINVAL) ∧
    (dispatch_outcome 0 [] 0 [vBounded] envOnline
        = (Outcome.missing_verb, [LogEvent.error_requires_operation]) ∧
      dispatch_verb 0 [] 0 [vBounded] envOnline () = -EINVAL) :=
  ⟨(dispatch_no_match_errors 1 0 ["bogus"] [vStatus, vRestart] envOnline ()).1 "bogus" rfl
      (by decide),
    (dispatch_no_match_errors 0 0 [] [vBounded] envOnline ()).2 rfl (by decide)⟩

/-! Claim C7. -/

/-- Enumeration of the post-lookup behaviors, pairing each outcome with
the `int` the direct embedding returns for it. -/
theorem matched_cases {U : Type} (argc : Nat) (argv : List String) (optind : Nat)
    (e : Env) (i : Nat) (v : Verb U) (ud : U) :
    ((matched_outcome argc argv optind e i v).1 = Outcome.too_few ∧
        matched_ret argc argv optind e v ud = -EINVAL) ∨
    ((matched_outcome argc argv optind e i v).1 = Outcome.too_many ∧
        matched_ret argc argv optind e v ud = -EINVAL) ∨
    ((matched_outcome argc argv optind e i v).1 = Outcome.chroot_skip ∧
        matched_ret argc argv optind e v ud = 0) ∨
    ((matched_outcome argc argv optind e i v).1 = Outcome.perm_error e.must_be_root ∧
        matched_ret argc argv optind e v ud = e.must_be_root) ∨
    (∃ l args, (matched_outcome argc argv optind e i v).1 = Outcome.invoked i l args ∧
        matched_ret argc argv optind e v ud = v.dispatch l args ud) := by
  by_cases hmin : minFails v.min_args (effective_left argc argv optind) = true
  · exact Or.inl ⟨by simp [matched_outcome, hmin], by simp [matched_ret, hmin]⟩
  · rw [Bool.not_eq_true] at hmin
    by_cases hmax : maxFails v.max_args (effective_left argc argv optind) = true
    · exact Or.inr (Or.inl ⟨by simp [matched_outcome, hmin, hmax],
        by simp [matched_ret, hmin, hmax]⟩)
    · rw [Bool.not_eq_true] at hmax
      by_cases hgate : (v.flags.online_only && (running_in_chroot_or_offline e).1) = true
      · obtain ⟨hon, hres⟩ := Bool.and_eq_true_iff.mp hgate
        exact Or.inr (Or.inr (Or.inl
          ⟨by simp [matched_outcome, hmin, hmax, hon, hres],
            by simp [matched_ret, hmin, hmax, hon, hres]⟩))
      · rw [Bool.not_eq_true] at hgate
        have hg1 : (if v.flags.online_only then running_in_chroot_or_offline e
            else ((false : Bool), ([] : List LogEvent))).1 = false := by
          cases hon : v.flags.online_only
          · simp
          · simpa [hon] using hgate
        by_cases hroot : (v.flags.must_be_root && decide (e.must_be_root < 0)) = true
        · exact Or.inr (Or.inr (Or.inr (Or.inl
            ⟨by simp [matched_outcome, hmin, hmax, hg1, hroot],
              by simp [matched_ret, hmin, hmax, hgate, hroot]⟩)))
        · rw [Bool.not_eq_true] at hroot
          refine Or.inr (Or.inr (Or.inr (Or.inr ?_)))
          cases hn : verb_name argv optind with
          | some n =>
              refine ⟨effective_left argc argv optind, argv.drop optind, ?_, ?_⟩
              · simp [matched_outcome, hmin, hmax, hg1, hroot, hn]
              · simp [matched_ret, hmin, hmax, hgate, hroot, hn]
          | none =>
              refine ⟨1, [v.verb], ?_, ?_⟩
              · simp [matched_outcome, hmin, hmax, hg1, hroot, hn]
              · simp [matched_ret, hmin, hmax, hgate, hroot, hn]

/-- C7 counterexample: the mapping from error kinds to returned codes is
not one-to-one: the distinct kinds `unknown_verb` (lookup failure) and
`too_few` (argument-count failure) both come back to the caller as the
same code `-EINVAL`. -/
theorem dispatch_error_codes_not_injective :
    (dispatch_outcome 1 ["bogus"] 0 [vStatus, vRestart] envOnline).1
        = Outcome.unknown_verb "bogus" ∧
    (dispatch_outcome 1 ["b"] 0 [vBounded] envOnline).1 = Outcome.too_few ∧
    Outcome.unknown_verb "bogus" ≠ Outcome.too_few ∧
    dispatch_verb 1 ["bogus"] 0 [vStatus, vRestart] envOnline ()
        = dispatch_verb 1 ["b"] 0 [vBounded] envOnline () := by
  exact ⟨rfl, rfl, by decide, rfl⟩

/-- C7 (amended): the error code returned by dispatch identifies the
error kind only up to the collapse the code performs: the four
lookup/argument-count kinds (`unknown_verb`, `missing_verb`, `too_few`,
`too_many`) all map to the single invalid-argument code `-EINVAL`, while
a privilege failure maps to whatever code the privilege check reported
(and the restricted-environment skip to `0`); the mapping is not
one-to-one. -/
theorem dispatch_error_code_mapping {U : Type}
    (argc optind : Nat) (argv : List String) (verbs : List (Verb U))
    (e : Env) (ud : U) :
    (∀ n, (dispatch_outcome argc argv optind verbs e).1 = Outcome.unknown_verb n →
        dispatch_verb argc argv optind verbs e ud = -EINVAL) ∧
    ((dispatch_outcome argc argv optind verbs e).1 = Outcome.missing_verb →
        dispatch_verb argc argv optind verbs e ud = -EINVAL) ∧
    ((dispatch_outcome argc argv optind verbs e).1 = Outcome.too_few →
        dispatch_verb argc argv optind verbs e ud = -EINVAL) ∧
    ((dispatch_outcome argc argv optind verbs e).1 = Outcome.too_many →
        dispatch_verb argc argv optind verbs e ud = -EINVAL) ∧
    (∀ r, (dispatch_outcome argc argv optind verbs e).1 = Outcome.perm_error r →
        dispatch_verb argc argv optind verbs e ud = r) ∧
    ((dispatch_outcome argc argv optind verbs e).1 = Outcome.chroot_skip →
        dispatch_verb argc argv optind verbs e ud = 0) := by
  cases hf : find_verb_from (verb_name argv optind) 0 verbs with
  | none =>
      cases hn : verb_name argv optind with
      | some n =>
          refine ⟨fun m h => ?_, fun h => ?_, fun h => ?_, fun h => ?_,
            fun r h => ?_, fun h => ?_⟩ <;>
            simp_all [dispatch_outcome, dispatch_verb, hf, hn]
      | none =>
          refine ⟨fun m h => ?_, fun h => ?_, fun h => ?_, fun h => ?_,
            fun r h => ?_, fun h => ?_⟩ <;>
            simp_all [dispatch_outcome, dispatch_verb, hf, hn]
  | some iv =>
      obtain ⟨i, v⟩ := iv
      rw [dispatch_outcome_eq_matched argc argv optind verbs e i v hf,
        dispatch_verb_eq_matched argc argv optind verbs e ud i v hf]
      rcases matched_cases argc argv optind e i v ud with
        ⟨ho, hr⟩ | ⟨ho, hr⟩ | ⟨ho, hr⟩ | ⟨ho, hr⟩ | ⟨l, args, ho, hr⟩ <;>
        refine ⟨fun m h => ?_, fun h => ?_, fun h => ?_, fun h => ?_,
          fun r h => ?_, fun h => ?_⟩ <;>
        rw [ho] at h <;>
        first
          | exact hr
          | exact Outcome.noConfusion h
          | (injection h with h2; rw [hr]; exact h2)

/-- C7 witness for the amended mapping: an argument-count failure
(`too_few`) comes back as `-EINVAL`, and a privilege failure comes back
as the privilege check's own code `-1`. -/
theorem dispatch_error_code_mapping_witness :
    ((dispatch_outcome 1 ["b"] 0 [vBounded] envOnline).1 = Outcome.too_few ∧
      dispatch_verb 1 ["b"] 0 [vBounded] envOnline () = -EINVAL) ∧
    ((dispatch_outcome 1 ["restart"] 0 [vStatus, vRestart] envNoRoot).1
        = Outcome.perm_error (-1) ∧
      dispatch_verb 1 ["restart"] 0 [vStatus, vRestart] envNoRoot () = -1) :=
  ⟨⟨rfl, (dispatch_error_code_mapping 1 0 ["b"] [vBounded] envOnline ()).2.2.1 rfl⟩,
    ⟨rfl, (dispatch_error_code_mapping 1 0 ["restart"] [vStatus, vRestart]
        envNoRoot ()).2.2.2.2.1 (-1) rfl⟩⟩

/-! Claim C8. -/

/-- C8: the restricted-environment predicate returns true whenever the
`SYSTEMD_OFFLINE` override parses to a truthy value and false whenever it
parses to a falsy value; only when the override is absent or fails to
parse (negative result, logged at debug level) does it fall through to
the chroot/isolation probe, returning true exactly when the probe reports
isolation (a positive result). -/
theorem chroot_or_offline_override (e : Env) :
    (running_in_chroot_or_offline e).1 =
      (if e.getenv_bool_offline < 0 then decide (0 < e.running_in_chroot)
       else decide (e.getenv_bool_offline ≠ 0)) ∧
    (running_in_chroot_or_offline e).2 =
      (if e.getenv_bool_offline < 0 then
        LogEvent.debug_parsing_offline e.getenv_bool_offline ::
          (if e.running_in_chroot < 0 then
            [LogEvent.debug_running_in_chroot e.running_in_chroot]
          else [])
       else []) := by
  unfold running_in_chroot_or_offline
  by_cases h1 : e.getenv_bool_offline < 0
  · by_cases h2 : e.running_in_chroot < 0
    · have h3 : ¬ (0 : Int) < e.running_in_chroot := by omega
      simp [h1, h2, h3]
    · by_cases h3 : (0 : Int) < e.running_in_chroot
      · simp [h1, h2, h3]
      · simp [h1, h2, h3]
  · by_cases h2 : e.getenv_bool_offline = 0
    · simp [h1, h2]
    · simp [h1, h2]

/-! Claim C9. -/

/-- C9: under the preconditions (`argv` is the vector terminated at index
`argc`, i.e. has length `argc`, and `optind ≤ argc`), the read
`argv[optind]` of step 1 is total: within range it always yields a value,
and it yields the terminator (`none`, taking the no-verb-given branch)
exactly when `optind` equals `argc`. -/
theorem verb_name_total_and_none_iff (argc optind : Nat) (argv : List String)
    (hlen : argv.length = argc) (hopt : optind ≤ argc) :
    (optind < argc → (verb_name argv optind).isSome = true) ∧
    (verb_name argv optind = none ↔ optind = argc) := by
  subst hlen
  constructor
  · intro h
    simp [verb_name, List.getElem?_eq_getElem h]
  · rw [verb_name, List.getElem?_eq_none_iff]
    omega

/-- C9 witness: with `argv = ["x"]`, `argc = 1`, `optind = 0` the read
yields a value and the no-verb branch is not taken; at `optind = 1` (the
terminator) it is. -/
theorem verb_name_total_and_none_iff_witness :
    (verb_name ["x"] 0).isSome = true ∧
    (verb_name ["x"] 0 = none ↔ (0 : Nat) = 1) ∧
    (verb_name ["x"] 1 = none ↔ (1 : Nat) = 1) :=
  ⟨(verb_name_total_and_none_iff 1 0 ["x"] rfl (by decide)).1 (by decide),
    (verb_name_total_and_none_iff 1 0 ["x"] rfl (by decide)).2,
    (verb_name_total_and_none_iff 1 1 ["x"] rfl (by decide)).2⟩

/-! Claim C10. -/

/-- C10: when the `SYSTEMD_OFFLINE` override yields no valid value and
the chroot probe itself returns an error, the predicate logs the probe
error at debug level and returns false — a failing probe is treated as
"not restricted" — and dispatch consequently proceeds to invoke matched
online-only verbs (when the argument counts and the privilege gate
pass). -/
theorem chroot_probe_error_not_restricted (e : Env)
    (hparse : e.getenv_bool_offline < 0)
    (hprobe : e.running_in_chroot < 0) :
    running_in_chroot_or_offline e =
      (false, [LogEvent.debug_parsing_offline e.getenv_bool_offline,
        LogEvent.debug_running_in_chroot e.running_in_chroot]) ∧
    (∀ (U : Type) (argc optind : Nat) (argv : List String) (verbs : List (Verb U))
        (ud : U) (i : Nat) (v : Verb U) (n : String),
        verb_name argv optind = some n →
        find_verb_from (verb_name argv optind) 0 verbs = some (i, v) →
        minFails v.min_args (effective_left argc argv optind) = false →
        maxFails v.max_args (effective_left argc argv optind) = false →
        v.flags.online_only = true →
        (v.flags.must_be_root = false ∨ 0 ≤ e.must_be_root) →
        (dispatch_outcome argc argv optind verbs e).1
            = Outcome.invoked i (effective_left argc argv optind) (argv.drop optind) ∧
        dispatch_verb argc argv optind verbs e ud
            = v.dispatch (effective_left argc argv optind) (argv.drop optind) ud) := by
  have hpred : running_in_chroot_or_offline e =
      (false, [LogEvent.debug_parsing_offline e.getenv_bool_offline,
        LogEvent.debug_running_in_chroot e.running_in_chroot]) := by
    simp [running_in_chroot_or_offline, hparse, hprobe]
  refine ⟨hpred, ?_⟩
  intro U argc optind argv verbs ud i v n hname hfind hmin hmax hon hroot
  have hres : (running_in_chroot_or_offline e).1 = false := by rw [hpred]
  have hgate : (if v.flags.online_only then running_in_chroot_or_offline e
      else ((false : Bool), ([] : List LogEvent))).1 = false := by
    simp [hon, hres]
  have hgateb : (v.flags.online_only && (running_in_chroot_or_offline e).1) = false := by
    simp [hres]
  have hrootb : (v.flags.must_be_root && decide (e.must_be_root < 0)) = false := by
    rcases hroot with h | h
    · simp [h]
    · simp [decide_eq_false (by omega : ¬ e.must_be_root < 0)]
  constructor
  · rw [dispatch_outcome_eq_matched argc argv optind verbs e i v hfind]
    simp only [matched_outcome, hmin, hmax, Bool.false_eq_true, if_false, hgate]
    simp [hrootb, hname]
  · rw [dispatch_verb_eq_matched argc argv optind verbs e ud i v hfind]
    simp only [matched_ret, hmin, hmax, Bool.false_eq_true, if_false, hgateb]
    simp [hrootb, hname]

/-- C10 witness: in the environment where `SYSTEMD_OFFLINE` is
unparsable (`-2`) and `running_in_chroot()` fails (`-1`), the predicate
returns false with both debug log events, and the online-only `restart`
verb is dispatched normally. -/
theorem chroot_probe_error_not_restricted_witness :
    running_in_chroot_or_offline envProbeError =
      (false, [LogEvent.debug_parsing_offline envProbeError.getenv_bool_offline,
        LogEvent.debug_running_in_chroot envProbeError.running_in_chroot]) ∧
    (dispatch_outcome 1 ["restart"] 0 [vStatus, vRestart] envProbeError).1
        = Outcome.invoked 1 (effective_left 1 ["restart"] 0) (List.drop 0 ["restart"]) ∧
    dispatch_verb 1 ["restart"] 0 [vStatus, vRestart] envProbeError ()
        = vRestart.dispatch (effective_left 1 ["restart"] 0) (List.drop 0 ["restart"]) () :=
  ⟨(chroot_probe_error_not_restricted envProbeError (by decide) (by decide)).1,
    (chroot_probe_error_not_restricted envProbeError (by decide) (by decide)).2
      Unit 1 0 ["restart"] [vStatus, vRestart] () 1 vRestart "restart"
      rfl rfl rfl rfl rfl (Or.inr (by decide))⟩

end Verbs
